import Mathlib

/-
Shallow embedding of `src/app.py` (bulk SERP similarity checker).

Conventions:
- Python floats are modelled as exact rationals (ℚ); all score arithmetic in the
  source is on small integers divided by 10, so the formulas are captured exactly.
- A parsed Google Custom Search JSON body is modelled by `SearchResults`
  (an optional `items` list whose entries carry an optional `link` field);
  the empty dictionary `{}` is `⟨none⟩` (no `items` field).
- `json.loads` is modelled by an abstract decodability oracle: an HTTP body is
  either `Body.valid v` (valid JSON decoding to `v`) or `Body.invalid`
  (raises `json.JSONDecodeError`, which is not a `requests` exception).
- The network is modelled by a transport function `Nat → HttpOutcome` giving the
  outcome of each successive `requests.get` call inside `search`.
-/

/-- One entry of the `items` list of a search response: its optional `link` field. -/
structure SearchItem where
  link : Option String
deriving DecidableEq, Repr

/-- Parsed JSON body of a search response: the optional `items` field.
The empty dictionary returned on retry exhaustion is `⟨none⟩`. -/
structure SearchResults where
  items : Option (List SearchItem)
deriving DecidableEq, Repr

/-- Result of one JSON decode attempt on an HTTP body: either valid JSON parsing
to a `SearchResults` value, or invalid JSON. -/
inductive Body where
  | invalid : Body
  | valid : SearchResults → Body
deriving DecidableEq, Repr

/-- Model of Python `json.loads(response.text)`: `none` means the call raises
`json.JSONDecodeError`. -/
def json_loads : Body → Option SearchResults
  | Body.invalid => none
  | Body.valid v => some v

/-- Outcome of one `requests.get` call: an HTTP response with a status code and a
body, or a network-level failure (`requests.exceptions.RequestException`). -/
inductive HttpOutcome where
  | response : Nat → Body → HttpOutcome
  | networkError : HttpOutcome
deriving DecidableEq, Repr

/-- What the `search` function in `app.py` returns: a parsed value (normal
return), or an uncaught `json.JSONDecodeError` propagating out of the loop. -/
inductive SearchResult where
  | value : SearchResults → SearchResult
  | jsonFailure : SearchResult
deriving DecidableEq, Repr

/-- Observable trace of one `search` call: its result, how many `requests.get`
calls were made, and the `time.sleep` durations in order. -/
structure SearchTrace where
  result : SearchResult
  attempts : Nat
  sleeps : List Nat
deriving DecidableEq, Repr

/-- Model of `response.raise_for_status()` from `requests` (line 24 of app.py):
raises `requests.exceptions.HTTPError` exactly for 4xx and 5xx status codes. -/
def raise_for_status (status : Nat) : Bool :=
  decide (400 ≤ status) && decide (status < 600)

/-- The retry loop body of `search` (app.py lines 18-29), with explicit fuel
(remaining iterations of `for attempt in range(5)`), call count and sleep log.
On 429: sleep 10 and continue. On a 4xx/5xx status `raise_for_status` raises
an exception caught by the `except` clause: sleep 5 and continue; likewise for
a network-level failure of `requests.get` itself. Otherwise the body is fed to
`json.loads`: a decode failure propagates (it is not a `RequestException`). -/
def searchGo (transport : Nat → HttpOutcome) : Nat → Nat → List Nat → SearchTrace
  | 0, calls, sleeps => ⟨SearchResult.value ⟨none⟩, calls, sleeps⟩
  | n + 1, calls, sleeps =>
    match transport calls with
    | HttpOutcome.networkError => searchGo transport n (calls + 1) (sleeps ++ [5])
    | HttpOutcome.response status body =>
      if status = 429 then
        searchGo transport n (calls + 1) (sleeps ++ [10])
      else if raise_for_status status then
        searchGo transport n (calls + 1) (sleeps ++ [5])
      else
        match json_loads body with
        | some v => ⟨SearchResult.value v, calls + 1, sleeps⟩
        | none => ⟨SearchResult.jsonFailure, calls + 1, sleeps⟩

/-- The `search` function of app.py: up to 5 attempts, returning `{}` (here
`⟨none⟩`) when all attempts fail. -/
def search (transport : Nat → HttpOutcome) : SearchTrace :=
  searchGo transport 5 0 []

/-- Loop body of `extract_urls` (app.py lines 35-38): append `item.get('link')`
when it is truthy (present and non-empty — Python `if link:`). -/
def appendLink (urls : List String) (item : SearchItem) : List String :=
  match item.link with
  | some link => if link = "" then urls else urls ++ [link]
  | none => urls

/-- The `extract_urls` function of app.py (lines 32-39): collect the truthy
`link` fields of the `items` entries in order, then truncate to the first 10. -/
def extract_urls (results : SearchResults) : List String :=
  let urls : List String :=
    match results.items with
    | none => []
    | some items => items.foldl appendLink []
  urls.take 10

/-- The `calculate_serp_similarity` function of app.py (lines 42-47):
`(len(set(urls1) & set(urls2)) / 10) * 100`, over exact rationals. -/
def calculate_serp_similarity (urls1 urls2 : List String) : ℚ :=
  let set1 := urls1.toFinset
  let set2 := urls2.toFinset
  let common_urls := set1 ∩ set2
  ((common_urls.card : ℚ) / 10) * 100

/-- A CSV row, as the mapping from column names to cell values that
`df.iterrows()` yields. -/
abbrev Row := List (String × String)

/-- Model of `row[k]` for a pandas row: `none` models a `KeyError`. -/
def rowGet (row : Row) (k : String) : Option String :=
  (List.find? (fun p => p.1 == k) row).map (fun p => p.2)

/-- One output record of the pipeline: the dict built at app.py line 65. -/
structure OutputRecord where
  keyword1 : String
  keyword2 : String
  similarity : ℚ
deriving DecidableEq, Repr

/-- Fallback record used only to state list equalities; never reached when the
required keys are present. -/
def defaultRecord : OutputRecord := ⟨"", "", 0⟩

/-- The `process_row` function of app.py (lines 50-65). The network is
abstracted by `net`, the parsed result that `search` returns for a query (the
claims about `process_file` do not depend on the retry internals). `none`
models the `KeyError` raised when a required key is missing from the row. -/
def process_row (row : Row) (net : String → SearchResults) : Option OutputRecord :=
  match rowGet row "Keyword 1" with
  | none => none
  | some keyword1 =>
    match rowGet row "Keyword 2" with
    | none => none
    | some keyword2 =>
      let results1 := net keyword1
      let results2 := net keyword2
      let urls1 := extract_urls results1
      let urls2 := extract_urls results2
      some ⟨keyword1, keyword2, calculate_serp_similarity urls1 urls2⟩

/-- An input table: the column list of the parsed CSV and its rows. -/
structure InputTable where
  columns : List String
  rows : List Row

/-- The row-collection loop of `process_file` (app.py lines 79-93). The source
iterates the futures dict in submission order and blocks on each `result()`, so
records are appended to `output_df` in input-row order; the fold makes that
order explicit. The second component counts `search` invocations (two per
processed row). A `KeyError` inside `process_row` aborts the loop. -/
def runRows (net : String → SearchResults) :
    List Row → List OutputRecord → Nat → Except String (List OutputRecord) × Nat
  | [], output, calls => (Except.ok output, calls)
  | row :: rest, output, calls =>
    match process_row row net with
    | some record => runRows net rest (output ++ [record]) (calls + 2)
    | none => (Except.error "KeyError", calls)

/-- The `process_file` function of app.py (lines 68-95): validate that both
required columns are present (raising `ValueError` otherwise, before any
network activity), then process every row. -/
def process_file (tbl : InputTable) (net : String → SearchResults) :
    Except String (List OutputRecord) × Nat :=
  if "Keyword 1" ∈ tbl.columns ∧ "Keyword 2" ∈ tbl.columns then
    runRows net tbl.rows [] 0
  else
    (Except.error "Input CSV must contain Keyword 1 and Keyword 2 columns", 0)

/-- The truthy link of an item: the value `extract_urls` keeps for that item
(a present, non-empty `link` field), if any. -/
def truthyLink (item : SearchItem) : Option String :=
  match item.link with
  | some link => if link = "" then none else some link
  | none => none

/-- The closed form of the score: `100 * |set ∩ set| / 10` over ℚ. -/
theorem score_eq (urls1 urls2 : List String) :
    calculate_serp_similarity urls1 urls2 =
      100 * ((urls1.toFinset ∩ urls2.toFinset).card : ℚ) / 10 := by
  unfold calculate_serp_similarity
  ring

/-- The URL-collection loop of `extract_urls` keeps exactly the truthy links,
in order. -/
theorem foldl_appendLink_eq (items : List SearchItem) (acc : List String) :
    items.foldl appendLink acc = acc ++ items.filterMap truthyLink := by
  induction items generalizing acc with
  | nil => simp
  | cons item rest ih =>
    cases hl : item.link with
    | none =>
      simp [List.foldl_cons, appendLink, hl, ih, List.filterMap_cons, truthyLink]
    | some link =>
      by_cases he : link = ""
      · simp [List.foldl_cons, appendLink, hl, he, ih, List.filterMap_cons, truthyLink]
      · simp [List.foldl_cons, appendLink, hl, he, ih, List.filterMap_cons, truthyLink]

/-- The extractor never returns more than 10 URLs. -/
theorem extract_urls_length_le (r : SearchResults) : (extract_urls r).length ≤ 10 := by
  obtain ⟨items⟩ := r
  cases items <;> simp [extract_urls, List.length_take]

/-- C1: for every pair of URL lists, the similarity score equals
`100 * |set(urls1) ∩ set(urls2)| / 10`; the denominator is the fixed constant
10 (never a set cardinality), so the computation is total and well-defined. -/
theorem C1_score_formula (urls1 urls2 : List String) :
    calculate_serp_similarity urls1 urls2 =
      100 * ((urls1.toFinset ∩ urls2.toFinset).card : ℚ) / 10 :=
  score_eq urls1 urls2

/-- C7 counterexample: for the non-empty list `A = ["u"]` the self-score is 10,
not 100; and for `A = ["u", "u"]` (length 2, fewer than 10 URLs) the self-score
is 10, strictly below `100 * len(A) / 10 = 20`: the claimed identities fail. -/
theorem C7_counterexample :
    calculate_serp_similarity ["u"] ["u"] = 10 ∧
    calculate_serp_similarity ["u"] ["u"] < 100 ∧
    calculate_serp_similarity ["u", "u"] ["u", "u"] = 10 ∧
    calculate_serp_similarity ["u", "u"] ["u", "u"] < 100 * 2 / 10 := by
  have h1 : ((["u"] : List String).toFinset ∩ (["u"] : List String).toFinset).card = 1 := by
    decide
  have h2 : ((["u", "u"] : List String).toFinset ∩
      (["u", "u"] : List String).toFinset).card = 1 := by
    decide
  refine ⟨?_, ?_, ?_, ?_⟩ <;> rw [score_eq]
  · rw [h1]; norm_num
  · rw [h1]; norm_num
  · rw [h2]; norm_num
  · rw [h2]; norm_num

/-- C7 (amended): the self-score is `100 * d / 10` where `d` is the number of
DISTINCT URLs of `A`; it equals 100 exactly when `A` has 10 distinct URLs, and
equals `100 * len(A) / 10` only for duplicate-free `A`. -/
theorem C7_self_similarity (A : List String) :
    calculate_serp_similarity A A = 100 * (A.toFinset.card : ℚ) / 10 ∧
    (A.toFinset.card = 10 → calculate_serp_similarity A A = 100) ∧
    (A.Nodup → calculate_serp_similarity A A = 100 * (A.length : ℚ) / 10) := by
  have base : calculate_serp_similarity A A = 100 * (A.toFinset.card : ℚ) / 10 := by
    rw [score_eq, Finset.inter_self]
  refine ⟨base, ?_, ?_⟩
  · intro h10
    rw [base, h10]
    norm_num
  · intro hnd
    rw [base, List.toFinset_card_of_nodup hnd]

/-- C7 witness: for the duplicate-free two-element list `["a", "b"]` the
self-score equals `100 * 2 / 10`. -/
theorem C7_self_similarity_witness :
    calculate_serp_similarity ["a", "b"] ["a", "b"] =
      100 * ((["a", "b"] : List String).length : ℚ) / 10 :=
  (C7_self_similarity ["a", "b"]).2.2 (by decide)

/-- C8: the score is symmetric, and invariant under any change of either list
that preserves its set of elements (reordering and duplication included). -/
theorem C8_symmetry_set_invariance (A B A2 B2 : List String)
    (hA : A.toFinset = A2.toFinset) (hB : B.toFinset = B2.toFinset) :
    calculate_serp_similarity A B = calculate_serp_similarity B A ∧
    calculate_serp_similarity A B = calculate_serp_similarity A2 B2 := by
  constructor
  · rw [score_eq, score_eq, Finset.inter_comm]
  · rw [score_eq, score_eq, hA, hB]

/-- C8 witness: symmetry and set-invariance at concrete lists, where
`["a", "b", "a"]` and `["b", "a"]` have the same element set, as do `["b"]`
and `["b", "b"]`. -/
theorem C8_symmetry_set_invariance_witness :
    calculate_serp_similarity ["a", "b", "a"] ["b"] =
      calculate_serp_similarity ["b"] ["a", "b", "a"] ∧
    calculate_serp_similarity ["a", "b", "a"] ["b"] =
      calculate_serp_similarity ["b", "a"] ["b", "b"] :=
  C8_symmetry_set_invariance ["a", "b", "a"] ["b"] ["b", "a"] ["b", "b"]
    (by decide) (by decide)

/-- Eleven pairwise distinct URLs, exhibiting a score above 100. -/
def elevenUrls : List String :=
  ["a", "b", "c", "d", "e", "f", "g", "h", "i", "j", "k"]

/-- C10: when both lists hold at most 10 distinct URLs (which the extractor
guarantees, returning at most 10 URLs), the score lies in [0, 100]; the scorer
itself does not clamp: a pair of lists sharing 11 distinct URLs scores above
100. -/
theorem C10_score_bounds (A B : List String)
    (hA : A.toFinset.card ≤ 10) (hB : B.toFinset.card ≤ 10) :
    (0 ≤ calculate_serp_similarity A B ∧ calculate_serp_similarity A B ≤ 100) ∧
    (∀ r : SearchResults, (extract_urls r).length ≤ 10) ∧
    (∃ C D : List String, 100 < calculate_serp_similarity C D) := by
  have h1 := score_eq A B
  have hcard : (A.toFinset ∩ B.toFinset).card ≤ 10 :=
    le_trans (Finset.card_le_card Finset.inter_subset_left) hA
  have hcq : (((A.toFinset ∩ B.toFinset).card : ℚ)) ≤ 10 := by exact_mod_cast hcard
  have hc0 : (0 : ℚ) ≤ ((A.toFinset ∩ B.toFinset).card : ℚ) := by positivity
  refine ⟨⟨?_, ?_⟩, extract_urls_length_le, ⟨elevenUrls, elevenUrls, ?_⟩⟩
  · rw [h1]
    positivity
  · rw [h1]
    linarith
  · have h11 : ((elevenUrls.toFinset ∩ elevenUrls.toFinset).card) = 11 := by decide
    rw [score_eq, h11]
    norm_num

/-- C10 witness: the bounds hold for the concrete singleton lists, together
with the extractor bound and the above-100 exhibit. -/
theorem C10_score_bounds_witness :
    (0 ≤ calculate_serp_similarity ["a"] ["b"] ∧
      calculate_serp_similarity ["a"] ["b"] ≤ 100) ∧
    (∀ r : SearchResults, (extract_urls r).length ≤ 10) ∧
    (∃ C D : List String, 100 < calculate_serp_similarity C D) :=
  C10_score_bounds ["a"] ["b"] (by decide) (by decide)

/-- C6 counterexample: an item whose `link` field is present but empty is
skipped by the code (Python `if link:` tests truthiness), while the claim
("skipping items lacking a link field") would keep its link: on a response
with the single item `{link: ""}` the code returns `[]`, but the list of link
fields of the items is `[""]`. -/
theorem C6_counterexample :
    extract_urls ⟨some [⟨some ""⟩]⟩ = [] ∧
    (([⟨some ""⟩] : List SearchItem).filterMap SearchItem.link).take 10 = [""] := by
  constructor
  · rfl
  · rfl

/-- C6 (amended): `extract_urls` returns `[]` when the response has no items
field; otherwise it returns the truthy link fields of the items in API order —
skipping items lacking a link field or carrying an empty one — truncated to the
first 10 after filtering, and the result never exceeds length 10. -/
theorem C6_extract_urls (r : SearchResults) :
    (r.items = none → extract_urls r = []) ∧
    (∀ items, r.items = some items →
      extract_urls r = (items.filterMap truthyLink).take 10) ∧
    (extract_urls r).length ≤ 10 := by
  refine ⟨?_, ?_, extract_urls_length_le r⟩
  · intro h
    simp [extract_urls, h]
  · intro items h
    simp [extract_urls, h, foldl_appendLink_eq]

/-- Twelve response items of which three lack a link field. -/
def twelveItems : List SearchItem :=
  [⟨some "u1"⟩, ⟨none⟩, ⟨some "u2"⟩, ⟨some "u3"⟩, ⟨none⟩, ⟨some "u4"⟩,
   ⟨some "u5"⟩, ⟨some "u6"⟩, ⟨none⟩, ⟨some "u7"⟩, ⟨some "u8"⟩, ⟨some "u9"⟩]

/-- C6 witness: on a response with 12 items of which 3 lack a link, the
extractor returns the filtered links truncated to 10 (here the 9 valid links),
within the length bound. -/
theorem C6_extract_urls_witness :
    extract_urls ⟨some twelveItems⟩ = (twelveItems.filterMap truthyLink).take 10 ∧
    extract_urls ⟨some twelveItems⟩ =
      ["u1", "u2", "u3", "u4", "u5", "u6", "u7", "u8", "u9"] ∧
    (extract_urls ⟨some twelveItems⟩).length ≤ 10 :=
  ⟨(C6_extract_urls ⟨some twelveItems⟩).2.1 twelveItems rfl, by decide,
   (C6_extract_urls ⟨some twelveItems⟩).2.2⟩

/-- The failure condition as the claim words it: HTTP 429, any non-2xx status,
or a network-level failure. -/
def claimFailing : HttpOutcome → Bool
  | HttpOutcome.networkError => true
  | HttpOutcome.response status _ =>
    status == 429 || decide (status < 200) || decide (300 ≤ status)

/-- The failure condition the code implements: HTTP 429, a 4xx/5xx status
(`raise_for_status`), or a network-level failure. A 1xx/3xx response is NOT a
failure for the code: it goes straight to `json.loads`. -/
def codeFailing : HttpOutcome → Bool
  | HttpOutcome.networkError => true
  | HttpOutcome.response status _ => status == 429 || raise_for_status status

/-- A transport answering every call with HTTP 300 and a valid non-empty body. -/
def cexTransportC2 : Nat → HttpOutcome := fun _ =>
  HttpOutcome.response 300 (Body.valid ⟨some [⟨some "u"⟩]⟩)

/-- One failing attempt (in the code's sense) recurses with one fewer unit
of fuel, one more call, and one appended sleep. -/
theorem searchGo_fail_step (transport : Nat → HttpOutcome) (n calls : Nat)
    (sleeps : List Nat) (h : codeFailing (transport calls) = true) :
    ∃ s, searchGo transport (n + 1) calls sleeps =
      searchGo transport n (calls + 1) (sleeps ++ [s]) := by
  cases htr : transport calls with
  | networkError => exact ⟨5, by simp [searchGo, htr]⟩
  | response status body =>
    rw [htr] at h
    by_cases h429 : status = 429
    · exact ⟨10, by simp [searchGo, htr, h429]⟩
    · have hrfs : raise_for_status status = true := by
        simp [codeFailing, h429] at h
        exact h
      exact ⟨5, by simp [searchGo, htr, h429, hrfs]⟩

/-- The sleep log only grows: whatever `searchGo` does, the sleeps it was
started with stay a prefix of the final log. -/
theorem searchGo_sleeps_extend (transport : Nat → HttpOutcome) :
    ∀ (n calls : Nat) (sleeps : List Nat),
      ∃ tail, (searchGo transport n calls sleeps).sleeps = sleeps ++ tail := by
  intro n
  induction n with
  | zero => exact fun calls sleeps => ⟨[], by simp [searchGo]⟩
  | succ n ih =>
    intro calls sleeps
    cases htr : transport calls with
    | networkError =>
      obtain ⟨tail, ht⟩ := ih (calls + 1) (sleeps ++ [5])
      exact ⟨5 :: tail, by simp [searchGo, htr, ht]⟩
    | response status body =>
      by_cases h429 : status = 429
      · obtain ⟨tail, ht⟩ := ih (calls + 1) (sleeps ++ [10])
        exact ⟨10 :: tail, by simp [searchGo, htr, h429, ht]⟩
      · by_cases hrfs : raise_for_status status = true
        · obtain ⟨tail, ht⟩ := ih (calls + 1) (sleeps ++ [5])
          exact ⟨5 :: tail, by simp [searchGo, htr, h429, hrfs, ht]⟩
        · cases hjl : json_loads body with
          | some v => exact ⟨[], by simp [searchGo, htr, h429, hrfs, hjl]⟩
          | none => exact ⟨[], by simp [searchGo, htr, h429, hrfs, hjl]⟩

/-- C2 counterexample: under the claim's own failure condition ("HTTP 429,
non-2xx status, or network-level failure") a transport answering HTTP 300 with
a valid body makes every one of 5 attempts "fail"; yet the code neither makes
5 attempts nor returns the empty object: `raise_for_status` raises only for
4xx/5xx, so the first 300 response is parsed and returned after one attempt. -/
theorem C2_counterexample :
    ((List.range 5).all (fun k => claimFailing (cexTransportC2 k))) = true ∧
    (search cexTransportC2).attempts = 1 ∧
    (search cexTransportC2).result = SearchResult.value ⟨some [⟨some "u"⟩]⟩ := by
  refine ⟨rfl, rfl, rfl⟩

/-- C2 (amended): if each of the 5 attempts fails in the code's sense (HTTP
429, a 4xx/5xx status, or a network-level failure), `search` returns the empty
result object — indistinguishable from a genuinely empty search — and makes
exactly 5 attempts, no 6th. -/
theorem C2_retry_exhaustion (transport : Nat → HttpOutcome)
    (h : ∀ k, k < 5 → codeFailing (transport k) = true) :
    (search transport).result = SearchResult.value ⟨none⟩ ∧
    (search transport).attempts = 5 := by
  obtain ⟨s0, e0⟩ := searchGo_fail_step transport 4 0 [] (h 0 (by omega))
  obtain ⟨s1, e1⟩ := searchGo_fail_step transport 3 1 [s0] (h 1 (by omega))
  obtain ⟨s2, e2⟩ := searchGo_fail_step transport 2 2 ([s0] ++ [s1]) (h 2 (by omega))
  obtain ⟨s3, e3⟩ :=
    searchGo_fail_step transport 1 3 ([s0] ++ [s1] ++ [s2]) (h 3 (by omega))
  obtain ⟨s4, e4⟩ :=
    searchGo_fail_step transport 0 4 ([s0] ++ [s1] ++ [s2] ++ [s3]) (h 4 (by omega))
  have : search transport =
      searchGo transport 0 5 ([s0] ++ [s1] ++ [s2] ++ [s3] ++ [s4]) := by
    unfold search
    rw [show (5 : Nat) = 4 + 1 from rfl, e0]
    simp only [List.nil_append]
    rw [show (4 : Nat) = 3 + 1 from rfl, e1]
    rw [show (3 : Nat) = 2 + 1 from rfl, e2]
    rw [show (2 : Nat) = 1 + 1 from rfl, e3]
    rw [show (1 : Nat) = 0 + 1 from rfl, e4]
  rw [this]
  exact ⟨rfl, rfl⟩

/-- A transport that is rate-limited on every call. -/
def witTransportC2 : Nat → HttpOutcome := fun _ =>
  HttpOutcome.response 429 Body.invalid

/-- C2 witness: five consecutive 429 responses yield the empty result object
after exactly 5 attempts. -/
theorem C2_retry_exhaustion_witness :
    (search witTransportC2).result = SearchResult.value ⟨none⟩ ∧
    (search witTransportC2).attempts = 5 :=
  C2_retry_exhaustion witTransportC2 (fun _ _ => rfl)

/-- A rate-limited attempt: sleep 10 and go on with the next attempt. -/
theorem searchGo_429_step (transport : Nat → HttpOutcome) (n calls : Nat)
    (sleeps : List Nat) (b : Body)
    (h : transport calls = HttpOutcome.response 429 b) :
    searchGo transport (n + 1) calls sleeps =
      searchGo transport n (calls + 1) (sleeps ++ [10]) := by
  simp [searchGo, h]

/-- A network-level failure: sleep 5 and go on with the next attempt. -/
theorem searchGo_networkError_step (transport : Nat → HttpOutcome) (n calls : Nat)
    (sleeps : List Nat) (h : transport calls = HttpOutcome.networkError) :
    searchGo transport (n + 1) calls sleeps =
      searchGo transport n (calls + 1) (sleeps ++ [5]) := by
  simp [searchGo, h]

/-- A 4xx/5xx response other than 429: sleep 5 and go on with the next
attempt. -/
theorem searchGo_httpError_step (transport : Nat → HttpOutcome) (n calls : Nat)
    (sleeps : List Nat) (status : Nat) (body : Body)
    (h : transport calls = HttpOutcome.response status body)
    (h429 : status ≠ 429) (hrfs : raise_for_status status = true) :
    searchGo transport (n + 1) calls sleeps =
      searchGo transport n (calls + 1) (sleeps ++ [5]) := by
  simp [searchGo, h, h429, hrfs]

/-- A non-error response with a valid JSON body ends the loop, returning the
parsed body. -/
theorem searchGo_success_step (transport : Nat → HttpOutcome) (n calls : Nat)
    (sleeps : List Nat) (status : Nat) (v : SearchResults)
    (h : transport calls = HttpOutcome.response status (Body.valid v))
    (h429 : status ≠ 429) (hrfs : raise_for_status status = false) :
    searchGo transport (n + 1) calls sleeps =
      ⟨SearchResult.value v, calls + 1, sleeps⟩ := by
  simp [searchGo, h, h429, hrfs, json_loads]

/-- C5: on the response sequence [429, 429, 200-with-valid-body] `search`
sleeps exactly twice for 10 time-units (each 429 consuming one attempt) and
returns the parsed body of the third attempt; and on any transport whose first
outcome is a non-429 failure (network-level, or a 4xx/5xx status) the first
backoff sleep is 5 time-units. -/
theorem C5_retry_backoff (transport transportF : Nat → HttpOutcome)
    (b0 b1 : Body) (v : SearchResults)
    (h0 : transport 0 = HttpOutcome.response 429 b0)
    (h1 : transport 1 = HttpOutcome.response 429 b1)
    (h2 : transport 2 = HttpOutcome.response 200 (Body.valid v))
    (hf : codeFailing (transportF 0) = true)
    (hf429 : ∀ b, transportF 0 ≠ HttpOutcome.response 429 b) :
    search transport = ⟨SearchResult.value v, 3, [10, 10]⟩ ∧
    (search transportF).sleeps.head? = some 5 := by
  constructor
  · unfold search
    rw [show searchGo transport 5 0 [] = searchGo transport 4 1 ([] ++ [10]) from
      searchGo_429_step transport 4 0 [] b0 h0]
    rw [show searchGo transport 4 1 ([] ++ [10]) =
        searchGo transport 3 2 ([] ++ [10] ++ [10]) from
      searchGo_429_step transport 3 1 ([] ++ [10]) b1 h1]
    exact searchGo_success_step transport 2 2 ([] ++ [10] ++ [10]) 200 v h2
      (by omega) rfl
  · have hstep : search transportF = searchGo transportF 4 1 ([] ++ [5]) := by
      unfold search
      cases htr : transportF 0 with
      | networkError =>
        exact searchGo_networkError_step transportF 4 0 [] htr
      | response status body =>
        have h429 : status ≠ 429 := by
          intro hcontra
          exact hf429 body (by rw [htr, hcontra])
        have hrfs : raise_for_status status = true := by
          rw [htr] at hf
          simp [codeFailing, h429] at hf
          exact hf
        exact searchGo_httpError_step transportF 4 0 [] status body htr h429 hrfs
    obtain ⟨tail, ht⟩ := searchGo_sleeps_extend transportF 4 1 ([] ++ [5])
    rw [hstep, ht]
    rfl

/-- The transport for the C5 witness: 429, 429, then 200 with a valid body. -/
def witTransportC5 : Nat → HttpOutcome
  | 0 => HttpOutcome.response 429 Body.invalid
  | 1 => HttpOutcome.response 429 Body.invalid
  | _ => HttpOutcome.response 200 (Body.valid ⟨some [⟨some "u1"⟩]⟩)

/-- A transport failing at the network level on every call. -/
def witTransportC5F : Nat → HttpOutcome := fun _ => HttpOutcome.networkError

/-- C5 witness: the concrete [429, 429, 200] sequence sleeps [10, 10] and
returns the third attempt's parsed body; a network failure backs off 5. -/
theorem C5_retry_backoff_witness :
    search witTransportC5 =
      ⟨SearchResult.value ⟨some [⟨some "u1"⟩]⟩, 3, [10, 10]⟩ ∧
    (search witTransportC5F).sleeps.head? = some 5 :=
  C5_retry_backoff witTransportC5 witTransportC5F Body.invalid Body.invalid
    ⟨some [⟨some "u1"⟩]⟩ rfl rfl rfl rfl
    (fun b h => HttpOutcome.noConfusion h)

/-- C9: a 2xx response whose body is not valid JSON makes `search` raise an
uncaught `json.JSONDecodeError` on that very attempt: the loop catches only
`requests` exceptions, so nothing is retried or degraded to an empty result —
the failure propagates to the caller after exactly one attempt, no sleeps. -/
theorem C9_json_decode_error (transport : Nat → HttpOutcome) (status : Nat)
    (h0 : transport 0 = HttpOutcome.response status Body.invalid)
    (hs : 200 ≤ status) (hs2 : status < 300) :
    search transport = ⟨SearchResult.jsonFailure, 1, []⟩ := by
  have h429 : status ≠ 429 := by omega
  have hrfs : raise_for_status status = false := by
    simp only [raise_for_status, Bool.and_eq_false_imp]
    intro hd
    simp at hd ⊢
    omega
  unfold search
  rw [show (5 : Nat) = 4 + 1 from rfl]
  simp [searchGo, h0, h429, hrfs, json_loads]

/-- C9 witness: a 200 response with an undecodable body propagates the decode
failure after one attempt. -/
theorem C9_json_decode_error_witness :
    search (fun _ => HttpOutcome.response 200 Body.invalid) =
      ⟨SearchResult.jsonFailure, 1, []⟩ :=
  C9_json_decode_error (fun _ => HttpOutcome.response 200 Body.invalid) 200
    rfl (by omega) (by omega)

/-- C3: when either required column is absent, `process_file` fails with the
configuration error before any network activity: zero `search` calls are made,
zero rows are processed, and no partial output exists (the result carries no
records). -/
theorem C3_missing_column (tbl : InputTable) (net : String → SearchResults)
    (h : ¬ ("Keyword 1" ∈ tbl.columns ∧ "Keyword 2" ∈ tbl.columns)) :
    process_file tbl net =
      (Except.error "Input CSV must contain Keyword 1 and Keyword 2 columns", 0) := by
  unfold process_file
  rw [if_neg h]

/-- C3 witness: a table lacking the column `Keyword 2` fails fast with call
count 0. -/
theorem C3_missing_column_witness :
    process_file ⟨["Keyword 1"], [[("Keyword 1", "a")]]⟩ (fun _ => ⟨none⟩) =
      (Except.error "Input CSV must contain Keyword 1 and Keyword 2 columns", 0) :=
  C3_missing_column ⟨["Keyword 1"], [[("Keyword 1", "a")]]⟩ (fun _ => ⟨none⟩)
    (by decide)

/-- When a row holds both required keys, `process_row` succeeds and echoes them
into the record. -/
theorem process_row_keys (row : Row) (net : String → SearchResults)
    (h1 : (rowGet row "Keyword 1").isSome) (h2 : (rowGet row "Keyword 2").isSome) :
    (process_row row net).isSome ∧
    (process_row row net).map OutputRecord.keyword1 = rowGet row "Keyword 1" ∧
    (process_row row net).map OutputRecord.keyword2 = rowGet row "Keyword 2" := by
  obtain ⟨k1, e1⟩ := Option.isSome_iff_exists.mp h1
  obtain ⟨k2, e2⟩ := Option.isSome_iff_exists.mp h2
  simp [process_row, e1, e2]

/-- When every row is processed successfully, the collection loop returns the
accumulated output followed by one record per row, in order, charging two
`search` calls per row. -/
theorem runRows_ok (net : String → SearchResults) (rows : List Row)
    (output : List OutputRecord) (calls : Nat)
    (hr : ∀ row ∈ rows, (process_row row net).isSome) :
    runRows net rows output calls =
      (Except.ok
        (output ++ rows.map (fun row => (process_row row net).getD defaultRecord)),
       calls + 2 * rows.length) := by
  induction rows generalizing output calls with
  | nil => simp [runRows]
  | cons row rest ih =>
    obtain ⟨record, hrec⟩ :=
      Option.isSome_iff_exists.mp (hr row (List.mem_cons_self row rest))
    have hrest : ∀ r ∈ rest, (process_row r net).isSome := fun r hmem =>
      hr r (List.mem_cons_of_mem row hmem)
    simp only [runRows, hrec]
    rw [ih (output ++ [record]) (calls + 2) hrest]
    simp only [Prod.mk.injEq, Except.ok.injEq, List.map_cons, hrec, Option.getD_some,
      List.length_cons]
    constructor
    · simp [List.append_assoc]
    · ring

/-- C4: for a valid input table (both required columns present, every row
carrying both keys, as pandas guarantees for a rectangular frame), the output
has exactly one record per input row, in input submission order, and the i-th
record carries exactly the keyword pair of the i-th input row. -/
theorem C4_output_correspondence (tbl : InputTable) (net : String → SearchResults)
    (hc : "Keyword 1" ∈ tbl.columns ∧ "Keyword 2" ∈ tbl.columns)
    (hr : ∀ row ∈ tbl.rows,
      (rowGet row "Keyword 1").isSome ∧ (rowGet row "Keyword 2").isSome) :
    ∃ recs, (process_file tbl net).1 = Except.ok recs ∧
      recs.length = tbl.rows.length ∧
      ∀ i, i < tbl.rows.length →
        recs[i]?.map OutputRecord.keyword1 =
          (tbl.rows[i]?.bind fun row => rowGet row "Keyword 1") ∧
        recs[i]?.map OutputRecord.keyword2 =
          (tbl.rows[i]?.bind fun row => rowGet row "Keyword 2") := by
  have hsome : ∀ row ∈ tbl.rows, (process_row row net).isSome := fun row hmem =>
    ((process_row_keys row net (hr row hmem).1 (hr row hmem).2).1)
  refine ⟨tbl.rows.map (fun row => (process_row row net).getD defaultRecord),
    ?_, by simp, ?_⟩
  · unfold process_file
    rw [if_pos hc, runRows_ok net tbl.rows [] 0 hsome]
    simp
  · intro i hi
    have hrowi : tbl.rows[i]? = some (tbl.rows[i]) := List.getElem?_eq_getElem hi
    have hmem : tbl.rows[i] ∈ tbl.rows := List.getElem_mem hi
    have hk := process_row_keys (tbl.rows[i]) net (hr _ hmem).1 (hr _ hmem).2
    obtain ⟨record, hrec⟩ := Option.isSome_iff_exists.mp hk.1
    have hf : (process_row (tbl.rows[i]) net).getD defaultRecord = record := by
      rw [hrec]
      rfl
    have hk1 : some record.keyword1 = rowGet (tbl.rows[i]) "Keyword 1" := by
      have h := hk.2.1
      rw [hrec] at h
      simpa using h
    have hk2 : some record.keyword2 = rowGet (tbl.rows[i]) "Keyword 2" := by
      have h := hk.2.2
      rw [hrec] at h
      simpa using h
    constructor
    · rw [List.getElem?_map, hrowi]
      simp [hf, hk1]
    · rw [List.getElem?_map, hrowi]
      simp [hf, hk2]

/-- A concrete valid three-row input table. -/
def witTable : InputTable :=
  ⟨["Keyword 1", "Keyword 2"],
   [[("Keyword 1", "a"), ("Keyword 2", "b")],
    [("Keyword 1", "c"), ("Keyword 2", "d")],
    [("Keyword 1", "e"), ("Keyword 2", "f")]]⟩

/-- C4 witness: the three-row table produces three records in order, each
echoing its input keyword pair. -/
theorem C4_output_correspondence_witness :
    ∃ recs, (process_file witTable (fun _ => ⟨none⟩)).1 = Except.ok recs ∧
      recs.length = witTable.rows.length ∧
      ∀ i, i < witTable.rows.length →
        recs[i]?.map OutputRecord.keyword1 =
          (witTable.rows[i]?.bind fun row => rowGet row "Keyword 1") ∧
        recs[i]?.map OutputRecord.keyword2 =
          (witTable.rows[i]?.bind fun row => rowGet row "Keyword 2") :=
  C4_output_correspondence witTable (fun _ => ⟨none⟩) (by decide) (by decide)
